import Mathlib

/-
Verification development for the ockam Node Manager service
(implementations/rust/ockam/ockam_api/src/nodes/service.rs) and the
enroll command (implementations/rust/ockam/ockam_command/src/enroll/mod.rs).

The Rust code is shallowly embedded: fallible external collaborators
(storage engine, filesystem, vault, identity import, rpc) are abstracted
as oracle environments, while the control flow of the embedded functions
follows the source line by line.
-/

namespace OckamSpec

abbrev Path := String
abbrev Bytes := List Nat
abbrev Alias := String
abbrev MultiAddr := String
abbrev IdentityIdentifier := String

/-- Error kinds, from ockam_core::errcode::Kind as used by the source
(Invalid, Internal) and the taxonomy of the spec (NotFound, Application). -/
inductive Kind where
  | invalid
  | internal
  | notFound
  | application
deriving DecidableEq

/-- An ockam_core::Error, reduced to the parts the source observes:
its kind and its display text. -/
structure OckamError where
  kind : Kind
  msg : String
deriving DecidableEq

/-- service.rs map_anyhow_err: wraps an anyhow error as (Application, Internal, err). -/
def map_anyhow_err (msg : String) : OckamError :=
  { kind := Kind.internal, msg := msg }

/-- Modelled from the spec: ApiError::generic (crate::error, not under src/)
produces a generic internal-kind error carrying the given description. -/
def ApiError.generic (msg : String) : OckamError :=
  { kind := Kind.internal, msg := msg }

/-- Request methods, ockam_core::api::Method. -/
inductive Method where
  | Get
  | Post
  | Put
  | Delete
deriving DecidableEq

/-- Modelled from the spec: ockam_core::api::Status (not under src/).
The spec gives the response envelope a numeric status; the variants here
are the ones named by the source files plus the usual HTTP-style set. -/
inductive Status where
  | ok
  | badRequest
  | unauthorized
  | forbidden
  | notFound
  | methodNotAllowed
  | conflict
  | internalServerError
  | notImplemented
deriving DecidableEq

/-- The integer carried by the status field of the response envelope. -/
def Status.code : Status → Nat
  | Status.ok => 200
  | Status.badRequest => 400
  | Status.unauthorized => 401
  | Status.forbidden => 403
  | Status.notFound => 404
  | Status.methodNotAllowed => 405
  | Status.conflict => 409
  | Status.internalServerError => 500
  | Status.notImplemented => 501

/-- Request envelope: {id, method, path, has_body}; the opaque body is left
to the handler oracles. method is optional exactly as in the source
(req.method() returns Option, absent or unrecognized decodes to none). -/
structure Request where
  id : Nat
  method : Option Method
  path : String
  has_body : Bool
deriving DecidableEq

/-- Response envelope: {id (echoed), status, body}; the body is modelled as
its decoded text. -/
structure Response where
  id : Nat
  status : Status
  body : String
deriving DecidableEq

/-- Splits a character list on the slash character, dropping empty
segments; acc holds the current segment reversed. -/
def segsAux : List Char → List Char → List String
  | [], acc => if acc.isEmpty then [] else [String.mk acc.reverse]
  | c :: rest, acc =>
      if c = '/' then
        if acc.isEmpty then segsAux rest []
        else String.mk acc.reverse :: segsAux rest []
      else segsAux rest (c :: acc)

/-- Modelled from the spec: Request::path_segments (ockam_core, not under
src/) splits the path into its ordered nonempty slash-separated segments
(the const 5 in the source is only the inline capacity of the vector). -/
def pathSegments (p : String) : List String :=
  segsAux p.data []

/-- Where a (method, path-segments) pair lands in the routing match of
NodeManager::handle_request. -/
inductive RouteTarget where
  | handler (name : String)
  | todoUnimplemented
  | catchAll
deriving DecidableEq

/-- One segment of a Rust slice pattern of the routing match: a literal
segment, or a positional capture binding any one segment. -/
inductive Seg where
  | lit (s : String)
  | cap
deriving DecidableEq

/-- Semantics of a slice pattern, exactly as Rust matches a slice against
a fixed-length pattern: same length, literal segments equal, captures
accept any single segment. -/
def segMatch : List Seg → List String → Bool
  | [], [] => true
  | Seg.lit l :: ps, x :: xs => (l == x) && segMatch ps xs
  | Seg.cap :: ps, _ :: xs => segMatch ps xs
  | _, _ => false

abbrev RouteEntry := List Seg × RouteTarget

def lit (s : String) : Seg := Seg.lit s

def cap : Seg := Seg.cap

/-- The (method, path-segments) arms of the routing match of
NodeManager::handle_request, in source order, as a table per method
(the arms are pairwise disjoint slice patterns, so first-match lookup
per method realizes the source match exactly). Arms that invoke a
handler are tagged with that handler; (Delete, [node, portal]) is the
todo-marked arm of the source. -/
def routes : Method → List RouteEntry
  | Method.Get =>
      [([lit "node"], RouteTarget.handler "node_status"),
       ([lit "node", lit "tcp", lit "connection"], RouteTarget.handler "get_tcp_connections"),
       ([lit "node", lit "tcp", lit "listener"], RouteTarget.handler "get_tcp_listeners"),
       ([lit "node", lit "secure_channel"], RouteTarget.handler "list_secure_channels"),
       ([lit "node", lit "secure_channel_listener"],
         RouteTarget.handler "list_secure_channel_listener"),
       ([lit "node", lit "show_secure_channel"], RouteTarget.handler "show_secure_channel"),
       ([lit "node", lit "inlet"], RouteTarget.handler "get_inlets"),
       ([lit "node", lit "outlet"], RouteTarget.handler "get_outlets"),
       ([lit "v0", lit "spaces"], RouteTarget.handler "list_spaces"),
       ([lit "v0", lit "spaces", cap], RouteTarget.handler "get_space"),
       ([lit "v0", lit "project-enrollers", cap], RouteTarget.handler "list_project_enrollers"),
       ([lit "v0", lit "projects"], RouteTarget.handler "list_projects"),
       ([lit "v0", lit "projects", cap], RouteTarget.handler "get_project"),
       ([lit "v0", lit "enroll", lit "token"], RouteTarget.handler "generate_enrollment_token"),
       ([lit "subscription", cap], RouteTarget.handler "get_subscription"),
       ([lit "subscription"], RouteTarget.handler "list_subscriptions")]
  | Method.Post =>
      [([lit "node", lit "tcp", lit "connection"], RouteTarget.handler "add_tcp_connection"),
       ([lit "node", lit "tcp", lit "listener"], RouteTarget.handler "add_tcp_listener"),
       ([lit "node", lit "vault"], RouteTarget.handler "create_vault"),
       ([lit "node", lit "identity"], RouteTarget.handler "create_identity"),
       ([lit "node", lit "identity", lit "actions", lit "show", lit "short"],
         RouteTarget.handler "short_identity"),
       ([lit "node", lit "identity", lit "actions", lit "show", lit "long"],
         RouteTarget.handler "long_identity"),
       ([lit "node", lit "credentials", lit "actions", lit "get"],
         RouteTarget.handler "get_credential"),
       ([lit "node", lit "credentials", lit "actions", lit "present"],
         RouteTarget.handler "present_credential"),
       ([lit "node", lit "secure_channel"], RouteTarget.handler "create_secure_channel"),
       ([lit "node", lit "secure_channel_listener"],
         RouteTarget.handler "create_secure_channel_listener"),
       ([lit "node", lit "services", lit "vault"], RouteTarget.handler "start_vault_service"),
       ([lit "node", lit "services", lit "identity"],
         RouteTarget.handler "start_identity_service"),
       ([lit "node", lit "services", lit "authenticated"],
         RouteTarget.handler "start_authenticated_service"),
       ([lit "node", lit "services", lit "uppercase"],
         RouteTarget.handler "start_uppercase_service"),
       ([lit "node", lit "services", lit "echo"], RouteTarget.handler "start_echoer_service"),
       ([lit "node", lit "services", lit "authenticator"],
         RouteTarget.handler "start_authenticator_service"),
       ([lit "node", lit "services", lit "verifier"],
         RouteTarget.handler "start_verifier_service"),
       ([lit "node", lit "services", lit "credentials"],
         RouteTarget.handler "start_credentials_service"),
       ([lit "node", lit "forwarder"], RouteTarget.handler "create_forwarder"),
       ([lit "node", lit "inlet"], RouteTarget.handler "create_inlet"),
       ([lit "node", lit "outlet"], RouteTarget.handler "create_outlet"),
       ([lit "v0", lit "spaces"], RouteTarget.handler "create_space"),
       ([lit "v0", lit "project-enrollers", cap], RouteTarget.handler "add_project_enroller"),
       ([lit "v0", lit "projects", cap], RouteTarget.handler "create_project"),
       ([lit "v0", lit "enroll", lit "auth0"], RouteTarget.handler "enroll_auth0"),
       ([lit "subscription"], RouteTarget.handler "activate_subscription"),
       ([lit "v0", lit "message"], RouteTarget.handler "send_message")]
  | Method.Put =>
      [([lit "v0", lit "enroll", lit "token"],
         RouteTarget.handler "authenticate_enrollment_token"),
       ([lit "subscription", cap, lit "contact_info"],
         RouteTarget.handler "update_subscription_contact_info"),
       ([lit "subscription", cap, lit "space_id"],
         RouteTarget.handler "update_subscription_space"),
       ([lit "subscription", cap, lit "unsubscribe"], RouteTarget.handler "unsubscribe")]
  | Method.Delete =>
      [([lit "node", lit "tcp", lit "connection"], RouteTarget.handler "delete_tcp_connection"),
       ([lit "node", lit "tcp", lit "listener"], RouteTarget.handler "delete_tcp_listener"),
       ([lit "node", lit "secure_channel"], RouteTarget.handler "delete_secure_channel"),
       ([lit "node", lit "portal"], RouteTarget.todoUnimplemented),
       ([lit "v0", lit "spaces", cap], RouteTarget.handler "delete_space"),
       ([lit "v0", lit "project-enrollers", cap, cap],
         RouteTarget.handler "delete_project_enroller"),
       ([lit "v0", lit "projects", cap, cap], RouteTarget.handler "delete_project")]

/-- The routing match of NodeManager::handle_request: the first arm of
the method's table whose slice pattern matches the segments wins; no
match falls through to the catch-all arm of the source. -/
def matchRoute (m : Method) (s : List String) : RouteTarget :=
  match (routes m).find? (fun e => segMatch e.1 s) with
  | some e => e.2
  | none => RouteTarget.catchAll

/-- Oracle for the dispatched handlers: given the handler arm that matched,
the encoded response it produces, or the error it returns. -/
abbrev HandlerEnv := String → Except OckamError Response

/-- Outcome of NodeManager::handle_request: an encoded response, a
propagated handler error, or a panic (a todo arm was reached). -/
inductive Outcome where
  | ok (r : Response)
  | err (e : OckamError)
  | panicked
deriving DecidableEq

/-- The body of the some-method branch of handle_request: dispatch on
(method, path segments); the catch-all arm builds the bad-request
response itself. -/
def dispatch (env : HandlerEnv) (req : Request) (m : Method) : Outcome :=
  match matchRoute m (pathSegments req.path) with
  | RouteTarget.todoUnimplemented => Outcome.panicked
  | RouteTarget.catchAll =>
      Outcome.ok
        { id := req.id, status := Status.badRequest, body := "Invalid endpoint: " ++ req.path }
  | RouteTarget.handler h =>
      match env h with
      | Except.ok r => Outcome.ok r
      | Except.error e => Outcome.err e

/-- NodeManager::handle_request: a missing method hits the todo arm of the
source and panics; otherwise the (method, segments) pair is dispatched. -/
def handle_request (env : HandlerEnv) (req : Request) : Outcome :=
  match req.method with
  | none => Outcome.panicked
  | some m => dispatch env req m

/-- What the worker does with one inbound message: sends nothing (decode
failed, returns Ok), sends a response, or panics. Sending itself is
modelled as succeeding. -/
inductive MsgOutcome where
  | noResponse
  | sent (r : Response)
  | panicked
deriving DecidableEq

/-- Worker::handle_message for NodeManager: the argument is the result of
decoding the message body as a Request; a decode error is logged and the
worker returns Ok without replying; a handler error becomes an
InternalServerError response carrying the error text. -/
def handle_message (env : HandlerEnv) (decoded : Except String Request) : MsgOutcome :=
  match decoded with
  | Except.error _ => MsgOutcome.noResponse
  | Except.ok req =>
      match handle_request env req with
      | Outcome.ok r => MsgOutcome.sent r
      | Outcome.err e =>
          MsgOutcome.sent
            { id := req.id, status := Status.internalServerError,
              body := "Failed to handle request: " ++ e.msg }
      | Outcome.panicked => MsgOutcome.panicked

/-- Persisted node configuration (NodeManConfig): durable record
{vault_path, identity bytes, authenticated_storage_path,
identity_was_overridden}, read at construction. -/
structure NodeManConfig where
  vault_path : Option Path
  identity : Option Bytes
  authenticated_storage_path : Option Path
  identity_was_overridden : Bool
deriving DecidableEq

/-- The configuration a fresh node directory loads: nothing recorded yet. -/
def NodeManConfig.fresh : NodeManConfig :=
  { vault_path := none, identity := none, authenticated_storage_path := none,
    identity_was_overridden := false }

/-- IdentityOverride: {identity bytes, vault file path}. -/
structure IdentityOverride where
  identity : Bytes
  vault_path : Path
deriving DecidableEq

/-- A vault handle, identified by the file-storage path backing it. -/
structure Vault where
  storagePath : Path
deriving DecidableEq

/-- An imported identity, as an external handle produced by the vault. -/
structure Identity where
  handle : Nat
deriving DecidableEq

/-- A verified public identity, as an external handle produced by import. -/
structure PublicIdentity where
  handle : Nat
deriving DecidableEq

/-- Modelled from the spec: one entry of the authorities config
(config/cli.rs, not under src/): {identity bytes, routing address}. -/
structure AuthorityConfigEntry where
  identity : Bytes
  access_route : MultiAddr
deriving DecidableEq

/-- Modelled from the spec: AuthoritiesConfig (config/cli.rs, not under
src/): a collection of authority entries, iterated in order. -/
structure AuthoritiesConfig where
  authorities : List AuthorityConfigEntry
deriving DecidableEq

/-- AuthorityInfo {public identity, routing address}. -/
structure AuthorityInfo where
  identity : PublicIdentity
  addr : MultiAddr
deriving DecidableEq

/-- Authorities: the list of AuthorityInfo set at most once. -/
structure Authorities where
  toList : List AuthorityInfo
deriving DecidableEq

inductive TransportType where
  | tcp
deriving DecidableEq

inductive TransportMode where
  | listen
  | connect
deriving DecidableEq

abbrev Transport := TransportType × TransportMode × String

/-- The NodeManager aggregate, with the fields NodeManager::create
assembles (live handles are identified by their configuration). -/
structure NodeManager where
  node_name : String
  node_dir : Path
  config : NodeManConfig
  api_transport_id : Alias
  transports : List (Alias × Transport)
  controller_identity_id : IdentityIdentifier
  skip_defaults : Bool
  enable_credential_checks : Bool
  vault : Option Vault
  identity : Option Identity
  project_id : Option Bytes
  authorities : Option Authorities
  authenticated_storage : Path
deriving DecidableEq

/-- NodeManager::vault accessor: a reference or a generic error.
The source message carries an apostrophe (Vault doesn t exist); it is
spelled without one here. -/
def NodeManager.getVault (nm : NodeManager) : Except OckamError Vault :=
  match nm.vault with
  | some v => Except.ok v
  | none => Except.error (ApiError.generic "Vault does not exist")

/-- Oracles for the fallible external collaborators NodeManager::create
talks to: each field is the outcome the outside world gives that call. -/
structure CreateEnv where
  apiTransportAlias : Alias
  lmdbNew : Path → Except OckamError Unit
  fsCopy : Path → Path → Bool
  persistStorageUpdate : Except String Unit
  persistOverrideUpdate : Except String Unit
  fileStorageCreate : Path → Except OckamError Unit
  identityImport : Bytes → Vault → Except OckamError Identity
  controllerIdentityId : Except OckamError IdentityIdentifier
  defaultVault : Except OckamError Vault
  defaultIdentity : Except OckamError Identity
  publicIdentityImport : Bytes → Vault → Except OckamError PublicIdentity

/-- The state NodeManager::create threads: the in-memory config, the
durably persisted config file, and whether an override vault file was
copied into the node directory (source → destination). -/
structure CreateState where
  cfg : NodeManConfig
  persisted : NodeManConfig
  copiedVaultFile : Option (Path × Path)
deriving DecidableEq

/-- Modelled from the spec: Self::default_vault_path (vault submodule,
not under src/): the default vault file inside the node directory. -/
def default_vault_path (node_dir : Path) : Path :=
  node_dir ++ "/default_vault.json"

/-- create, step: resolve the authenticated-storage path (use the
persisted one, else default to node_dir/authenticated_storage.lmdb,
store it into the config and persist immediately), then open the
storage there. -/
def resolveAuthenticatedStorage (env : CreateEnv) (node_dir : Path) (st : CreateState) :
    Except OckamError Path × CreateState :=
  match st.cfg.authenticated_storage_path with
  | some p =>
      match env.lmdbNew p with
      | Except.ok _ => (Except.ok p, st)
      | Except.error e => (Except.error e, st)
  | none =>
      let default_location := node_dir ++ "/authenticated_storage.lmdb"
      let cfg1 := { st.cfg with authenticated_storage_path := some default_location }
      match env.persistStorageUpdate with
      | Except.error m => (Except.error (map_anyhow_err m), { st with cfg := cfg1 })
      | Except.ok _ =>
          let st1 := { st with cfg := cfg1, persisted := cfg1 }
          match env.lmdbNew default_location with
          | Except.ok _ => (Except.ok default_location, st1)
          | Except.error e => (Except.error e, st1)

/-- create, step: if no vault path is configured yet and an identity
override was supplied, copy the override vault file to the default vault
path, record vault path + identity bytes + the override flag, persist. -/
def applyIdentityOverride (env : CreateEnv) (node_dir : Path)
    (identity_override : Option IdentityOverride) (st : CreateState) :
    Except OckamError Unit × CreateState :=
  if st.cfg.vault_path.isNone then
    match identity_override with
    | some o =>
        let vault_path := default_vault_path node_dir
        if env.fsCopy o.vault_path vault_path then
          let cfg1 := { st.cfg with
            vault_path := some vault_path,
            identity := some o.identity,
            identity_was_overridden := true }
          let st1 := { st with
            cfg := cfg1, copiedVaultFile := some (o.vault_path, vault_path) }
          match env.persistOverrideUpdate with
          | Except.ok _ => (Except.ok (), { st1 with persisted := cfg1 })
          | Except.error m => (Except.error (map_anyhow_err m), st1)
        else
          (Except.error (ApiError.generic "Error while copying default node"), st)
    | none => (Except.ok (), st)
  else
    (Except.ok (), st)

/-- create, step: if a vault path is configured, open the vault-backed
key store there. -/
def openVault (env : CreateEnv) (vault_path : Option Path) : Except OckamError (Option Vault) :=
  match vault_path with
  | some p =>
      match env.fileStorageCreate p with
      | Except.ok _ => Except.ok (some { storagePath := p })
      | Except.error e => Except.error e
  | none => Except.ok none

/-- create, step: if identity bytes are configured and a vault was
resolved, import the identity via the vault. -/
def importIdentity (env : CreateEnv) (identity_info : Option Bytes) (vault : Option Vault) :
    Except OckamError (Option Identity) :=
  match identity_info with
  | some bytes =>
      match vault with
      | some v =>
          match env.identityImport bytes v with
          | Except.ok i => Except.ok (some i)
          | Except.error e => Except.error e
      | none => Except.ok none
  | none => Except.ok none

/-- The loop body of configure_authorities: import every entry of the
config through the vault, in order, aborting on the first failure. -/
def importAuthorities (env : CreateEnv) (vault : Vault) :
    List AuthorityConfigEntry → Except OckamError (List AuthorityInfo)
  | [] => Except.ok []
  | a :: rest =>
      match env.publicIdentityImport a.identity vault with
      | Except.error e => Except.error e
      | Except.ok pid =>
          match importAuthorities env vault rest with
          | Except.error e => Except.error e
          | Except.ok v => Except.ok ({ identity := pid, addr := a.access_route } :: v)

/-- NodeManager::configure_authorities: resolve every config entry into a
verified public identity via the vault, then store the Authorities list;
any failure (or a missing vault) returns the error with the manager
untouched, mirroring &mut self mutation only at the final assignment. -/
def configure_authorities (env : CreateEnv) (nm : NodeManager) (ac : AuthoritiesConfig) :
    Except OckamError Unit × NodeManager :=
  match nm.getVault with
  | Except.error e => (Except.error e, nm)
  | Except.ok vault =>
      match importAuthorities env vault ac.authorities with
      | Except.error e => (Except.error e, nm)
      | Except.ok v => (Except.ok (), { nm with authorities := some { toList := v } })

/-- Modelled from the spec: NodeManager::create_defaults calls
create_vault_impl(None, true) and create_identity_impl(ctx, true)
(vault and identity submodules, not under src/): idempotently create the
default vault and then the default identity if absent. -/
def create_defaults (env : CreateEnv) (nm : NodeManager) :
    Except OckamError Unit × NodeManager :=
  match nm.vault with
  | some _ =>
      match nm.identity with
      | some _ => (Except.ok (), nm)
      | none =>
          match env.defaultIdentity with
          | Except.error e => (Except.error e, nm)
          | Except.ok i => (Except.ok (), { nm with identity := some i })
  | none =>
      match env.defaultVault with
      | Except.error e => (Except.error e, nm)
      | Except.ok v =>
          let nm1 := { nm with vault := some v }
          match nm1.identity with
          | some _ => (Except.ok (), nm1)
          | none =>
              match env.defaultIdentity with
              | Except.error e => (Except.error e, nm1)
              | Except.ok i => (Except.ok (), { nm1 with identity := some i })

/-- The arguments of NodeManager::create (the context and the live tcp
transport handle are carried by the oracle environment). -/
structure CreateArgs where
  node_name : String
  node_dir : Path
  identity_override : Option IdentityOverride
  skip_defaults : Bool
  enable_credential_checks : Bool
  ac : Option AuthoritiesConfig
  project_id : Option Bytes
  api_transport : Transport
deriving DecidableEq

/-- The error create returns when enable_credential_checks is set without
both an authorities config and a project id. -/
def invalidNodeManagerOptions : OckamError :=
  { kind := Kind.invalid, msg := "Invalid NodeManager options" }

/-- create, final stage: unless skip_defaults, run create_defaults and,
when an authorities config was supplied, configure_authorities on the
assembled manager s; otherwise return s. -/
def createRunDefaults (env : CreateEnv) (a : CreateArgs) (st2 : CreateState)
    (s : NodeManager) : Except OckamError NodeManager × CreateState :=
  if !a.skip_defaults then
    match create_defaults env s with
    | (Except.error e, _) => (Except.error e, st2)
    | (Except.ok _, s1) =>
        match a.ac with
        | some ac =>
            match configure_authorities env s1 ac with
            | (Except.error e, _) => (Except.error e, st2)
            | (Except.ok _, s2) => (Except.ok s2, st2)
        | none => (Except.ok s1, st2)
  else
    (Except.ok s, st2)

/-- create, stage: load the controller identity id and assemble the
NodeManager aggregate (authorities start out empty). -/
def createAssemble (env : CreateEnv) (a : CreateArgs) (authenticated_storage : Path)
    (st2 : CreateState) (vault : Option Vault) (identity : Option Identity) :
    Except OckamError NodeManager × CreateState :=
  match env.controllerIdentityId with
  | Except.error e => (Except.error e, st2)
  | Except.ok controller_identity_id =>
      createRunDefaults env a st2 {
        node_name := a.node_name,
        node_dir := a.node_dir,
        config := st2.cfg,
        api_transport_id := env.apiTransportAlias,
        transports := [(env.apiTransportAlias, a.api_transport)],
        controller_identity_id := controller_identity_id,
        skip_defaults := a.skip_defaults,
        enable_credential_checks := a.enable_credential_checks,
        vault := vault,
        identity := identity,
        project_id := a.project_id,
        authorities := none,
        authenticated_storage := authenticated_storage }

/-- create, stage: validate the trust configuration, then assemble.
enable_credential_checks without both an authorities config and a
project id is a fatal Invalid construction error. -/
def createValidate (env : CreateEnv) (a : CreateArgs) (authenticated_storage : Path)
    (st2 : CreateState) (vault : Option Vault) (identity : Option Identity) :
    Except OckamError NodeManager × CreateState :=
  if a.enable_credential_checks && (a.ac.isNone || a.project_id.isNone) then
    (Except.error invalidNodeManagerOptions, st2)
  else
    createAssemble env a authenticated_storage st2 vault identity

/-- create, stage: open the configured vault (if any), import the
configured identity (if any, and only with a vault), then validate. -/
def createVaultIdentity (env : CreateEnv) (a : CreateArgs) (authenticated_storage : Path)
    (st2 : CreateState) : Except OckamError NodeManager × CreateState :=
  match openVault env st2.cfg.vault_path with
  | Except.error e => (Except.error e, st2)
  | Except.ok vault =>
      match importIdentity env st2.cfg.identity vault with
      | Except.error e => (Except.error e, st2)
      | Except.ok identity =>
          createValidate env a authenticated_storage st2 vault identity

/-- NodeManager::create: loads the config (cfg0 is what Config::load
found in the node directory), resolves authenticated storage, applies a
pending identity override, opens the vault, imports the identity,
validates the trust configuration, assembles the manager, and unless
skip_defaults creates the default vault/identity and configures
authorities. Returns the construction result together with the final
on-disk state of the node directory. The stages are the source blocks of
NodeManager::create in source order, named for tractability. -/
def create (env : CreateEnv) (a : CreateArgs) (cfg0 : NodeManConfig) :
    Except OckamError NodeManager × CreateState :=
  match resolveAuthenticatedStorage env a.node_dir
      { cfg := cfg0, persisted := cfg0, copiedVaultFile := none } with
  | (Except.error e, st) => (Except.error e, st)
  | (Except.ok authenticated_storage, st1) =>
      match applyIdentityOverride env a.node_dir a.identity_override st1 with
      | (Except.error e, st) => (Except.error e, st)
      | (Except.ok _, st2) => createVaultIdentity env a authenticated_storage st2

/-- The external operations of NodeManager::create that run before the
trust-configuration validation all succeed. -/
def CreateEnv.PreOk (env : CreateEnv) : Prop :=
  (∀ p, env.lmdbNew p = Except.ok ()) ∧
  (∀ a b, env.fsCopy a b = true) ∧
  env.persistStorageUpdate = Except.ok () ∧
  env.persistOverrideUpdate = Except.ok () ∧
  (∀ p, env.fileStorageCreate p = Except.ok ()) ∧
  (∀ b v, ∃ i, env.identityImport b v = Except.ok i)

/-- Oracles of the enroll step of the enrollment command: the token
fetch, the request send, and the checked response status. -/
structure EnrollEnv where
  token : Except String Unit
  request : Except String Unit
  checkResponse : Except String (Option Status)

/-- ockam_command enroll::enroll: fetch an auth0 token, send the enroll
request, check the response; status Ok means newly enrolled and
BadRequest means already enrolled, both Ok for the command; every other
status is a failure. -/
def enroll (env : EnrollEnv) : Except String Unit :=
  match env.token with
  | Except.error e => Except.error e
  | Except.ok _ =>
  match env.request with
  | Except.error e => Except.error e
  | Except.ok _ =>
  match env.checkResponse with
  | Except.error e => Except.error e
  | Except.ok res =>
  if res = some Status.ok then Except.ok ()
  else if res = some Status.badRequest then Except.ok ()
  else Except.error "Failed to enroll"

/-- A handler environment in which every dispatched handler fails. -/
def failEnv : HandlerEnv :=
  fun _ => Except.error { kind := Kind.internal, msg := "boom" }

/-- A create environment in which every external operation succeeds. -/
def allOkEnv : CreateEnv := {
  apiTransportAlias := "api",
  lmdbNew := fun _ => Except.ok (),
  fsCopy := fun _ _ => true,
  persistStorageUpdate := Except.ok (),
  persistOverrideUpdate := Except.ok (),
  fileStorageCreate := fun _ => Except.ok (),
  identityImport := fun _ _ => Except.ok { handle := 1 },
  controllerIdentityId := Except.ok "controller",
  defaultVault := Except.ok { storagePath := "default" },
  defaultIdentity := Except.ok { handle := 2 },
  publicIdentityImport := fun _ _ => Except.ok { handle := 3 } }

/-- A concrete inbound request for (Delete, [node, portal]). -/
def reqDeletePortal : Request :=
  { id := 7, method := some Method.Delete, path := "/node/portal", has_body := false }

/-- A concrete inbound request routed to the create_vault handler. -/
def reqPostVault : Request :=
  { id := 3, method := some Method.Post, path := "/node/vault", has_body := true }

/-- A concrete inbound request matching no arm of the routing table. -/
def reqUnrouted : Request :=
  { id := 9, method := some Method.Get, path := "/test", has_body := false }

/-- Concrete create arguments: credential checks demanded with neither
authorities nor project id, and a pending identity override. -/
def argsChecksNoTrust : CreateArgs :=
  { node_name := "n", node_dir := "/nd",
    identity_override := some { identity := [1], vault_path := "/tmp/v" },
    skip_defaults := false, enable_credential_checks := true,
    ac := none, project_id := none,
    api_transport := (TransportType.tcp, TransportMode.listen, "127.0.0.1:4000") }

/-- Concrete create arguments: bare construction that skips defaults. -/
def argsSkipDefaults : CreateArgs :=
  { node_name := "n", node_dir := "/nd",
    identity_override := none,
    skip_defaults := true, enable_credential_checks := false,
    ac := none, project_id := none,
    api_transport := (TransportType.tcp, TransportMode.listen, "127.0.0.1:4000") }

/-- The configuration argsSkipDefaults leaves persisted: only the
default authenticated-storage path recorded. -/
def cfgSkipExpected : NodeManConfig :=
  { vault_path := none
    identity := none
    authenticated_storage_path := some "/nd/authenticated_storage.lmdb"
    identity_was_overridden := false }

/-- The manager argsSkipDefaults yields from a fresh directory under
allOkEnv: storage at the default path, no vault, no identity. -/
def nmSkipExpected : NodeManager :=
  { node_name := "n", node_dir := "/nd",
    config := cfgSkipExpected,
    api_transport_id := "api",
    transports := [("api", (TransportType.tcp, TransportMode.listen, "127.0.0.1:4000"))],
    controller_identity_id := "controller",
    skip_defaults := true, enable_credential_checks := false,
    vault := none, identity := none, project_id := none, authorities := none,
    authenticated_storage := "/nd/authenticated_storage.lmdb" }

/-- The on-disk state argsSkipDefaults leaves from a fresh directory
under allOkEnv. -/
def stSkipExpected : CreateState :=
  { cfg := cfgSkipExpected, persisted := cfgSkipExpected, copiedVaultFile := none }

/-- A concrete manager with no vault resolved. -/
def nmNoVault : NodeManager :=
  { nmSkipExpected with node_name := "novault" }

/-- A concrete one-entry authorities config. -/
def acOneEntry : AuthoritiesConfig :=
  { authorities := [{ identity := [9], access_route := "/route/a" }] }

/-- A concrete enroll environment whose checked response has status
BadRequest (already enrolled). -/
def enrollEnvBadRequest : EnrollEnv :=
  { token := Except.ok (), request := Except.ok (),
    checkResponse := Except.ok (some Status.badRequest) }

/-! ## Theorems -/

theorem segMatch_two_lits {a b : String} {s : List String}
    (h : segMatch [Seg.lit a, Seg.lit b] s = true) : s = [a, b] := by
  cases s with
  | nil => simp [segMatch] at h
  | cons x xs =>
      cases xs with
      | nil => simp [segMatch] at h
      | cons y ys =>
          cases ys with
          | nil =>
              simp [segMatch] at h
              simp [h.1, h.2]
          | cons z zs => simp [segMatch] at h

set_option maxHeartbeats 1000000 in
theorem matchRoute_todo {m : Method} {s : List String}
    (h : matchRoute m s = RouteTarget.todoUnimplemented) :
    m = Method.Delete ∧ s = ["node", "portal"] := by
  unfold matchRoute at h
  cases hf : (routes m).find? (fun e => segMatch e.1 s) with
  | none => rw [hf] at h; simp at h
  | some e =>
      rw [hf] at h
      change e.2 = RouteTarget.todoUnimplemented at h
      have hmem := List.mem_of_find?_eq_some hf
      have hp0 := List.find?_some hf
      have hp : segMatch e.1 s = true := by simpa using hp0
      cases m <;> fin_cases hmem <;>
        first
          | exact ⟨rfl, segMatch_two_lits (by simpa [lit] using hp)⟩
          | simp at h

theorem handle_request_some (env : HandlerEnv) (req : Request) (m : Method)
    (hm : req.method = some m) : handle_request env req = dispatch env req m := by
  unfold handle_request
  rw [hm]

theorem dispatch_handler (env : HandlerEnv) (req : Request) (m : Method) (h0 : String)
    (hr : matchRoute m (pathSegments req.path) = RouteTarget.handler h0) :
    dispatch env req m =
      match env h0 with
      | Except.ok r => Outcome.ok r
      | Except.error e => Outcome.err e := by
  unfold dispatch
  rw [hr]

theorem handle_message_of_ok {env : HandlerEnv} {req : Request} {r : Response}
    (h : handle_request env req = Outcome.ok r) :
    handle_message env (Except.ok req) = MsgOutcome.sent r := by
  simp only [handle_message, h]

theorem handle_message_of_err {env : HandlerEnv} {req : Request} {e : OckamError}
    (h : handle_request env req = Outcome.err e) :
    handle_message env (Except.ok req) = MsgOutcome.sent
      { id := req.id, status := Status.internalServerError,
        body := "Failed to handle request: " ++ e.msg } := by
  simp only [handle_message, h]

/-- Claim C1, counterexample: the well-decoded request (Delete,
/node/portal) reaches dispatch and panics (the todo arm of the source),
so a request that reaches dispatch can propagate an unhandled failure
out of the dispatch boundary, contrary to the claim. -/
theorem delete_portal_request_panics :
    handle_message failEnv (Except.ok reqDeletePortal) = MsgOutcome.panicked := by decide

/-- Claim C1, amended: for every inbound request that decodes
successfully, whose method field is present, and whose (method,
path-segments) pair is not (Delete, [node, portal]), handle_message
never panics, and if the dispatched handler returns an error it sends a
response with status InternalServerError whose body carries the error
text and returns without terminating the actor. -/
theorem dispatch_error_becomes_500 (env : HandlerEnv) (req : Request) (m : Method)
    (hm : req.method = some m)
    (hx : ¬(m = Method.Delete ∧ pathSegments req.path = ["node", "portal"])) :
    handle_message env (Except.ok req) ≠ MsgOutcome.panicked ∧
    (∀ h e, matchRoute m (pathSegments req.path) = RouteTarget.handler h →
      env h = Except.error e →
      handle_message env (Except.ok req) = MsgOutcome.sent
        { id := req.id, status := Status.internalServerError,
          body := "Failed to handle request: " ++ e.msg }) := by
  have hreq := handle_request_some env req m hm
  cases hr : matchRoute m (pathSegments req.path) with
  | todoUnimplemented => exact absurd (matchRoute_todo hr) hx
  | catchAll =>
      have hout : handle_request env req = Outcome.ok
          { id := req.id, status := Status.badRequest,
            body := "Invalid endpoint: " ++ req.path } := by
        rw [hreq]
        unfold dispatch
        rw [hr]
      refine ⟨?_, ?_⟩
      · rw [handle_message_of_ok hout]
        simp
      · intro h e hr' _
        simp at hr'
  | handler h0 =>
      have hstep := dispatch_handler env req m h0 hr
      refine ⟨?_, ?_⟩
      · cases he : env h0 with
        | ok r =>
            have hout : handle_request env req = Outcome.ok r := by
              rw [hreq, hstep, he]
            rw [handle_message_of_ok hout]
            simp
        | error e =>
            have hout : handle_request env req = Outcome.err e := by
              rw [hreq, hstep, he]
            rw [handle_message_of_err hout]
            simp
      · intro h e hr' henv
        have hh : h0 = h := by
          cases hr'
          rfl
        subst hh
        have hout : handle_request env req = Outcome.err e := by
          rw [hreq, hstep, henv]
        exact handle_message_of_err hout

/-- Claim C1, witness: a Post /node/vault request whose handler fails is
answered with a 500 response carrying the error text. -/
theorem dispatch_error_becomes_500_witness :
    handle_message failEnv (Except.ok reqPostVault) = MsgOutcome.sent
      { id := 3, status := Status.internalServerError,
        body := "Failed to handle request: boom" } :=
  (dispatch_error_becomes_500 failEnv reqPostVault Method.Post rfl (by decide)).2
    "create_vault" { kind := Kind.internal, msg := "boom" } (by decide) rfl

/-- Claim C2: an inbound message whose body fails to decode as a request
envelope is logged, no outgoing message is sent, and handle_message
returns Ok so the actor keeps serving (MsgOutcome.noResponse models
exactly: nothing sent, Ok returned). -/
theorem decode_failure_sends_nothing (env : HandlerEnv) (e : String) :
    handle_message env (Except.error e) = MsgOutcome.noResponse := rfl

/-- Claim C3: a well-decoded request whose (method, path-segments) pair
matches no entry of the routing table is answered with status 400 (bad
request, integer code 400) whose body is exactly
"Invalid endpoint: " followed by the full request path, echoing the
originating request id. -/
theorem unrouted_request_gets_400 (env : HandlerEnv) (req : Request) (m : Method)
    (hm : req.method = some m)
    (hr : matchRoute m (pathSegments req.path) = RouteTarget.catchAll) :
    handle_request env req = Outcome.ok
      { id := req.id, status := Status.badRequest,
        body := "Invalid endpoint: " ++ req.path } ∧
    Status.code Status.badRequest = 400 := by
  refine ⟨?_, rfl⟩
  rw [handle_request_some env req m hm]
  unfold dispatch
  rw [hr]

/-- Claim C3, witness: Get /test matches no route and yields the exact
400 response with the request id echoed. -/
theorem unrouted_request_gets_400_witness :
    handle_request failEnv reqUnrouted = Outcome.ok
      { id := 9, status := Status.badRequest, body := "Invalid endpoint: /test" } ∧
    Status.code Status.badRequest = 400 :=
  unrouted_request_gets_400 failEnv reqUnrouted Method.Get rfl (by decide)

theorem openVault_ok (env : CreateEnv) (vp : Option Path)
    (hfs : ∀ p, env.fileStorageCreate p = Except.ok ()) :
    ∃ v, openVault env vp = Except.ok v := by
  cases vp with
  | none => exact ⟨none, rfl⟩
  | some p => exact ⟨some { storagePath := p }, by simp [openVault, hfs p]⟩

theorem importIdentity_ok (env : CreateEnv) (ib : Option Bytes) (v : Option Vault)
    (hii : ∀ b vault, ∃ i, env.identityImport b vault = Except.ok i) :
    ∃ r, importIdentity env ib v = Except.ok r := by
  cases ib with
  | none => exact ⟨none, rfl⟩
  | some b =>
      cases v with
      | none => exact ⟨none, rfl⟩
      | some vault =>
          obtain ⟨i, hi⟩ := hii b vault
          exact ⟨some i, by simp [importIdentity, hi]⟩

theorem resolve_ok (env : CreateEnv) (node_dir : Path) (st : CreateState)
    (hl : ∀ p, env.lmdbNew p = Except.ok ())
    (hps : env.persistStorageUpdate = Except.ok ()) :
    ∃ p st1, resolveAuthenticatedStorage env node_dir st = (Except.ok p, st1) := by
  cases hasp : st.cfg.authenticated_storage_path with
  | some p =>
      exact ⟨p, st, by simp [resolveAuthenticatedStorage, hasp, hl p]⟩
  | none =>
      refine ⟨node_dir ++ "/authenticated_storage.lmdb",
        { st with
          cfg := { st.cfg with
            authenticated_storage_path := some (node_dir ++ "/authenticated_storage.lmdb") },
          persisted := { st.cfg with
            authenticated_storage_path := some (node_dir ++ "/authenticated_storage.lmdb") } },
        ?_⟩
      simp [resolveAuthenticatedStorage, hasp, hps, hl]

theorem override_ok (env : CreateEnv) (node_dir : Path) (ovr : Option IdentityOverride)
    (st : CreateState)
    (hc : ∀ a b, env.fsCopy a b = true)
    (hpo : env.persistOverrideUpdate = Except.ok ()) :
    ∃ st2, applyIdentityOverride env node_dir ovr st = (Except.ok (), st2) := by
  by_cases hvp : st.cfg.vault_path.isNone
  · cases ovr with
    | none => exact ⟨st, by simp [applyIdentityOverride, hvp]⟩
    | some o =>
        refine
          ⟨{ cfg := { st.cfg with vault_path := some (default_vault_path node_dir), identity := some o.identity, identity_was_overridden := true },
             persisted := { st.cfg with vault_path := some (default_vault_path node_dir), identity := some o.identity, identity_was_overridden := true },
             copiedVaultFile := some (o.vault_path, default_vault_path node_dir) }, ?_⟩
        simp [applyIdentityOverride, hvp, hc, hpo]
  · exact ⟨st, by simp [applyIdentityOverride, hvp]⟩

/-- Claim C4: when every external operation preceding the validation
succeeds, create with enable_credential_checks and a missing authorities
config or project id (either one) returns the Invalid-kind error and no
NodeManager, for all other arguments and loaded configs. -/
theorem create_requires_trust_config (env : CreateEnv) (a : CreateArgs) (cfg0 : NodeManConfig)
    (henv : env.PreOk)
    (hecc : a.enable_credential_checks = true)
    (hmiss : a.ac = none ∨ a.project_id = none) :
    (create env a cfg0).1 = Except.error invalidNodeManagerOptions ∧
    invalidNodeManagerOptions.kind = Kind.invalid := by
  obtain ⟨hl, hc, hps, hpo, hfs, hii⟩ := henv
  refine ⟨?_, rfl⟩
  obtain ⟨p, st1, h1⟩ :=
    resolve_ok env a.node_dir { cfg := cfg0, persisted := cfg0, copiedVaultFile := none } hl hps
  obtain ⟨st2, h2⟩ := override_ok env a.node_dir a.identity_override st1 hc hpo
  obtain ⟨v, h3⟩ := openVault_ok env st2.cfg.vault_path hfs
  obtain ⟨i, h4⟩ := importIdentity_ok env st2.cfg.identity v hii
  have hcond : (a.enable_credential_checks && (a.ac.isNone || a.project_id.isNone)) = true := by
    rcases hmiss with hx | hx <;> simp [hecc, hx]
  have hkey : create env a cfg0 = (Except.error invalidNodeManagerOptions, st2) := by
    simp [create, h1, h2, createVaultIdentity, h3, h4, createValidate, hcond]
  rw [hkey]

/-- Claim C4, witness: the all-succeeding environment with credential
checks demanded but no authorities config yields the Invalid error. -/
theorem create_requires_trust_config_witness :
    (create allOkEnv argsChecksNoTrust NodeManConfig.fresh).1 =
      Except.error invalidNodeManagerOptions ∧
    invalidNodeManagerOptions.kind = Kind.invalid :=
  create_requires_trust_config allOkEnv argsChecksNoTrust NodeManConfig.fresh
    ⟨fun _ => rfl, fun _ _ => rfl, rfl, rfl, fun _ => rfl,
      fun _ _ => ⟨{ handle := 1 }, rfl⟩⟩
    rfl (Or.inl rfl)

theorem importAuthorities_spec (env : CreateEnv) (vault : Vault) :
    ∀ (l : List AuthorityConfigEntry) (v : List AuthorityInfo),
      importAuthorities env vault l = Except.ok v →
      v.length = l.length ∧
      ∀ a ∈ l, ∃ pid, env.publicIdentityImport a.identity vault = Except.ok pid := by
  intro l
  induction l with
  | nil =>
      intro v h
      simp [importAuthorities] at h
      subst h
      simp
  | cons a rest ih =>
      intro v h
      unfold importAuthorities at h
      cases hpi : env.publicIdentityImport a.identity vault with
      | error e => rw [hpi] at h; simp at h
      | ok pid =>
          rw [hpi] at h
          cases hrest : importAuthorities env vault rest with
          | error e => rw [hrest] at h; simp at h
          | ok v0 =>
              rw [hrest] at h
              simp at h
              obtain ⟨hlen, hall⟩ := ih v0 hrest
              subst h
              constructor
              · simp [hlen]
              · intro b hb
                rcases List.mem_cons.mp hb with hb | hb
                · subst hb; exact ⟨pid, hpi⟩
                · exact hall b hb

/-- Claim C5: configure_authorities is all-or-nothing: on any error
(missing vault, or any single import failure) the manager is returned
untouched, and on success the authorities field holds exactly one
AuthorityInfo per config entry, every entry having imported
successfully through the vault. -/
theorem configure_authorities_all_or_nothing (env : CreateEnv) (nm : NodeManager)
    (ac : AuthoritiesConfig) (r : Except OckamError Unit) (nm' : NodeManager)
    (h : configure_authorities env nm ac = (r, nm')) :
    (∀ e, r = Except.error e → nm' = nm) ∧
    (r = Except.ok () →
      ∃ vault v, nm.vault = some vault ∧
        importAuthorities env vault ac.authorities = Except.ok v ∧
        nm' = { nm with authorities := some { toList := v } } ∧
        v.length = ac.authorities.length ∧
        ∀ a ∈ ac.authorities, ∃ pid,
          env.publicIdentityImport a.identity vault = Except.ok pid) := by
  cases hnv : nm.vault with
  | none =>
      have hkey : configure_authorities env nm ac =
          (Except.error (ApiError.generic "Vault does not exist"), nm) := by
        simp [configure_authorities, NodeManager.getVault, hnv]
      rw [hkey] at h
      injection h with h1 h2
      subst h1
      subst h2
      constructor
      · intro e _
        rfl
      · intro hok
        simp at hok
  | some vault =>
      cases him : importAuthorities env vault ac.authorities with
      | error e =>
          have hkey : configure_authorities env nm ac = (Except.error e, nm) := by
            simp [configure_authorities, NodeManager.getVault, hnv, him]
          rw [hkey] at h
          injection h with h1 h2
          subst h1
          subst h2
          constructor
          · intro e0 _
            rfl
          · intro hok
            simp at hok
      | ok v =>
          have hkey : configure_authorities env nm ac =
              (Except.ok (), { nm with authorities := some { toList := v } }) := by
            simp [configure_authorities, NodeManager.getVault, hnv, him]
          rw [hkey] at h
          injection h with h1 h2
          subst h1
          subst h2
          constructor
          · intro e0 he
            simp at he
          · intro _
            obtain ⟨hlen, hall⟩ := importAuthorities_spec env vault ac.authorities v him
            refine ⟨vault, v, rfl, him, ?_, hlen, hall⟩
            rw [hnv]

/-- Claim C5, witness: on a manager without a vault the call fails and
the manager is unchanged. -/
theorem configure_authorities_all_or_nothing_witness :
    (configure_authorities allOkEnv nmNoVault acOneEntry).2 = nmNoVault :=
  (configure_authorities_all_or_nothing allOkEnv nmNoVault acOneEntry
      (Except.error (ApiError.generic "Vault does not exist")) nmNoVault rfl).1
    (ApiError.generic "Vault does not exist") rfl

theorem importIdentity_vault_none (env : CreateEnv) (ib : Option Bytes)
    (r : Option Identity) (h : importIdentity env ib none = Except.ok r) : r = none := by
  cases ib <;> simp [importIdentity] at h <;> exact h.symm

theorem create_defaults_some (env : CreateEnv) (nm : NodeManager) (u : Unit)
    (nm1 : NodeManager) (h : create_defaults env nm = (Except.ok u, nm1)) :
    nm1.vault.isSome = true ∧ nm1.identity.isSome = true := by
  cases hnv : nm.vault with
  | some v0 =>
      cases hni : nm.identity with
      | some i0 =>
          have hkey : create_defaults env nm = (Except.ok (), nm) := by
            simp [create_defaults, hnv, hni]
          rw [hkey] at h
          injection h with h1 h2
          subst h2
          simp [hnv, hni]
      | none =>
          cases hdi : env.defaultIdentity with
          | error e =>
              have hkey : create_defaults env nm = (Except.error e, nm) := by
                simp [create_defaults, hnv, hni, hdi]
              rw [hkey] at h
              injection h with h1 h2
              simp at h1
          | ok i =>
              have hkey : create_defaults env nm =
                  (Except.ok (), { nm with identity := some i }) := by
                simp [create_defaults, hnv, hni, hdi]
              rw [hkey] at h
              injection h with h1 h2
              subst h2
              simp [hnv]
  | none =>
      cases hdv : env.defaultVault with
      | error e =>
          have hkey : create_defaults env nm = (Except.error e, nm) := by
            simp [create_defaults, hnv, hdv]
          rw [hkey] at h
          injection h with h1 h2
          simp at h1
      | ok v0 =>
          cases hni : nm.identity with
          | some i0 =>
              have hkey : create_defaults env nm =
                  (Except.ok (), { nm with vault := some v0 }) := by
                simp [create_defaults, hnv, hdv, hni]
              rw [hkey] at h
              injection h with h1 h2
              subst h2
              simp [hni]
          | none =>
              cases hdi : env.defaultIdentity with
              | error e =>
                  have hkey : create_defaults env nm = (Except.error e,
                      { nm with vault := some v0 }) := by
                    simp [create_defaults, hnv, hdv, hni, hdi]
                  rw [hkey] at h
                  injection h with h1 h2
                  simp at h1
              | ok i =>
                  have hkey : create_defaults env nm = (Except.ok (),
                      { nm with vault := some v0, identity := some i }) := by
                    simp [create_defaults, hnv, hdv, hni, hdi]
                  rw [hkey] at h
                  injection h with h1 h2
                  subst h2
                  simp

theorem configure_authorities_preserves (env : CreateEnv) (nm : NodeManager)
    (ac : AuthoritiesConfig) :
    (configure_authorities env nm ac).2.vault = nm.vault ∧
    (configure_authorities env nm ac).2.identity = nm.identity := by
  cases hv : nm.getVault with
  | error e => simp [configure_authorities, hv]
  | ok vault =>
      cases him : importAuthorities env vault ac.authorities with
      | error e => simp [configure_authorities, hv, him]
      | ok v => simp [configure_authorities, hv, him]

/-- Claim C6: every successful create yields a manager satisfying the
invariant that identity is Some only if vault is Some: if no vault was
resolved, the identity field is None even when identity bytes are
present in the persisted config. -/
theorem create_identity_requires_vault (env : CreateEnv) (a : CreateArgs)
    (cfg0 : NodeManConfig) (nm : NodeManager) (st : CreateState)
    (h : create env a cfg0 = (Except.ok nm, st)) (hv : nm.vault = none) :
    nm.identity = none := by
  rcases h1 : resolveAuthenticatedStorage env a.node_dir
      { cfg := cfg0, persisted := cfg0, copiedVaultFile := none } with ⟨r1, st1⟩
  cases r1 with
  | error e =>
      have hkey : create env a cfg0 = (Except.error e, st1) := by simp [create, h1]
      rw [hkey] at h
      injection h with hL hR
      simp at hL
  | ok p =>
  rcases h2 : applyIdentityOverride env a.node_dir a.identity_override st1 with ⟨r2, st2⟩
  cases r2 with
  | error e =>
      have hkey : create env a cfg0 = (Except.error e, st2) := by simp [create, h1, h2]
      rw [hkey] at h
      injection h with hL hR
      simp at hL
  | ok u2 =>
  have hkey : create env a cfg0 = createVaultIdentity env a p st2 := by
    simp [create, h1, h2]
  rw [hkey] at h
  cases h3 : openVault env st2.cfg.vault_path with
  | error e =>
      rw [show createVaultIdentity env a p st2 = (Except.error e, st2) by
        simp [createVaultIdentity, h3]] at h
      injection h with hL hR
      simp at hL
  | ok v =>
  cases h4 : importIdentity env st2.cfg.identity v with
  | error e =>
      rw [show createVaultIdentity env a p st2 = (Except.error e, st2) by
        simp [createVaultIdentity, h3, h4]] at h
      injection h with hL hR
      simp at hL
  | ok idres =>
  rw [show createVaultIdentity env a p st2 = createValidate env a p st2 v idres by
    simp [createVaultIdentity, h3, h4]] at h
  by_cases hif : (a.enable_credential_checks && (a.ac.isNone || a.project_id.isNone)) = true
  · rw [show createValidate env a p st2 v idres =
        (Except.error invalidNodeManagerOptions, st2) by
      simp [createValidate, hif]] at h
    injection h with hL hR
    simp at hL
  · rw [show createValidate env a p st2 v idres = createAssemble env a p st2 v idres by
      simp [createValidate, hif]] at h
    cases h5 : env.controllerIdentityId with
    | error e =>
        rw [show createAssemble env a p st2 v idres = (Except.error e, st2) by
          simp [createAssemble, h5]] at h
        injection h with hL hR
        simp at hL
    | ok cid =>
    set s0 : NodeManager :=
      { node_name := a.node_name, node_dir := a.node_dir, config := st2.cfg,
        api_transport_id := env.apiTransportAlias,
        transports := [(env.apiTransportAlias, a.api_transport)],
        controller_identity_id := cid, skip_defaults := a.skip_defaults,
        enable_credential_checks := a.enable_credential_checks, vault := v,
        identity := idres, project_id := a.project_id, authorities := none,
        authenticated_storage := p } with hs0
    rw [show createAssemble env a p st2 v idres = createRunDefaults env a st2 s0 by
      simp [createAssemble, h5, hs0]] at h
    by_cases hsd : a.skip_defaults = true
    · rw [show createRunDefaults env a st2 s0 = (Except.ok s0, st2) by
        simp [createRunDefaults, hsd]] at h
      injection h with hL hR
      injection hL with hnm
      subst hnm
      rw [hs0] at hv
      simp at hv
      subst hv
      rw [hs0]
      simp
      exact importIdentity_vault_none env st2.cfg.identity idres h4
    · have hsd2 : a.skip_defaults = false := by
        cases hq : a.skip_defaults
        · rfl
        · exact absurd hq hsd
      rcases h6 : create_defaults env s0 with ⟨r6, s1⟩
      cases r6 with
      | error e =>
          rw [show createRunDefaults env a st2 s0 = (Except.error e, st2) by
            simp [createRunDefaults, hsd2, h6]] at h
          injection h with hL hR
          simp at hL
      | ok u6 =>
      obtain ⟨hv1, hi1⟩ := create_defaults_some env s0 u6 s1 h6
      cases hac : a.ac with
      | none =>
          rw [show createRunDefaults env a st2 s0 = (Except.ok s1, st2) by
            simp [createRunDefaults, hsd2, h6, hac]] at h
          injection h with hL hR
          injection hL with hnm
          subst hnm
          rw [hv] at hv1
          simp at hv1
      | some ac0 =>
          rcases h7 : configure_authorities env s1 ac0 with ⟨r7, s2⟩
          cases r7 with
          | error e =>
              rw [show createRunDefaults env a st2 s0 = (Except.error e, st2) by
                simp [createRunDefaults, hsd2, h6, hac, h7]] at h
              injection h with hL hR
              simp at hL
          | ok u7 =>
              rw [show createRunDefaults env a st2 s0 = (Except.ok s2, st2) by
                simp [createRunDefaults, hsd2, h6, hac, h7]] at h
              injection h with hL hR
              injection hL with hnm
              subst hnm
              have hpres := configure_authorities_preserves env s1 ac0
              rw [h7] at hpres
              obtain ⟨hpv, hpi⟩ := hpres
              simp at hpv
              rw [hv] at hpv
              rw [← hpv] at hv1
              simp at hv1

/-- Claim C6, witness: a bare skip-defaults construction from a fresh
directory succeeds with no vault, and its identity is indeed none. -/
theorem create_identity_requires_vault_witness : nmSkipExpected.identity = none :=
  create_identity_requires_vault allOkEnv argsSkipDefaults NodeManConfig.fresh
    nmSkipExpected stSkipExpected rfl rfl


/-- Claim C7 -/
theorem authenticated_storage_path_resolution (env : CreateEnv) (node_dir : Path)
    (st : CreateState) :
    (∀ p, st.cfg.authenticated_storage_path = some p →
      (env.lmdbNew p = Except.ok () →
        resolveAuthenticatedStorage env node_dir st = (Except.ok p, st)) ∧
      (resolveAuthenticatedStorage env node_dir st).2 = st) ∧
    (st.cfg.authenticated_storage_path = none →
      env.persistStorageUpdate = Except.ok () →
      (env.lmdbNew (node_dir ++ "/authenticated_storage.lmdb") = Except.ok () →
        resolveAuthenticatedStorage env node_dir st =
          (Except.ok (node_dir ++ "/authenticated_storage.lmdb"),
            { st with
              cfg := { st.cfg with
                authenticated_storage_path := some (node_dir ++ "/authenticated_storage.lmdb") },
              persisted := { st.cfg with
                authenticated_storage_path := some (node_dir ++ "/authenticated_storage.lmdb") } })) ∧
      (resolveAuthenticatedStorage env node_dir st).2.persisted =
        { st.cfg with
          authenticated_storage_path := some (node_dir ++ "/authenticated_storage.lmdb") }) := by
  constructor
  · intro p hp
    constructor
    · intro hl
      simp [resolveAuthenticatedStorage, hp, hl]
    · cases hl : env.lmdbNew p with
      | ok u => simp [resolveAuthenticatedStorage, hp, hl]
      | error e => simp [resolveAuthenticatedStorage, hp, hl]
  · intro hn hps
    constructor
    · intro hl
      simp [resolveAuthenticatedStorage, hn, hps, hl]
    · cases hl : env.lmdbNew (node_dir ++ "/authenticated_storage.lmdb") with
      | ok u => simp [resolveAuthenticatedStorage, hn, hps, hl]
      | error e => simp [resolveAuthenticatedStorage, hn, hps, hl]

/-- Claim C8 -/
theorem identity_override_application (env : CreateEnv) (node_dir : Path)
    (ovr : Option IdentityOverride) (st : CreateState) :
    (∀ o, st.cfg.vault_path = none → ovr = some o →
      env.fsCopy o.vault_path (default_vault_path node_dir) = true →
      env.persistOverrideUpdate = Except.ok () →
      applyIdentityOverride env node_dir ovr st =
        (Except.ok (),
          { cfg := { st.cfg with vault_path := some (default_vault_path node_dir), identity := some o.identity, identity_was_overridden := true },
            persisted := { st.cfg with vault_path := some (default_vault_path node_dir), identity := some o.identity, identity_was_overridden := true },
            copiedVaultFile := some (o.vault_path, default_vault_path node_dir) })) ∧
    (∀ vp, st.cfg.vault_path = some vp →
      applyIdentityOverride env node_dir ovr st = (Except.ok (), st)) ∧
    (ovr = none → applyIdentityOverride env node_dir ovr st = (Except.ok (), st)) := by
  refine ⟨?_, ?_, ?_⟩
  · intro o hvp ho hcopy hpo
    subst ho
    simp [applyIdentityOverride, hvp, hcopy, hpo]
  · intro vp hvp
    simp [applyIdentityOverride, hvp]
  · intro ho
    subst ho
    by_cases hvp : st.cfg.vault_path.isNone <;> simp [applyIdentityOverride, hvp]

/-- Claim C9 -/
theorem create_validation_after_side_effects :
    (create allOkEnv argsChecksNoTrust NodeManConfig.fresh).1 =
      Except.error invalidNodeManagerOptions ∧
    (create allOkEnv argsChecksNoTrust NodeManConfig.fresh).2.persisted.authenticated_storage_path =
      some "/nd/authenticated_storage.lmdb" ∧
    (create allOkEnv argsChecksNoTrust NodeManConfig.fresh).2.copiedVaultFile =
      some ("/tmp/v", "/nd/default_vault.json") ∧
    (create allOkEnv argsChecksNoTrust NodeManConfig.fresh).2.persisted.vault_path =
      some "/nd/default_vault.json" ∧
    (create allOkEnv argsChecksNoTrust NodeManConfig.fresh).2.persisted.identity = some [1] ∧
    (create allOkEnv argsChecksNoTrust NodeManConfig.fresh).2.persisted.identity_was_overridden =
      true :=
  ⟨rfl, rfl, rfl, rfl, rfl, rfl⟩

/-- Claim C10 -/
theorem enroll_treats_badrequest_as_success (env : EnrollEnv) (res : Option Status)
    (ht : env.token = Except.ok ()) (hr : env.request = Except.ok ())
    (hc : env.checkResponse = Except.ok res) :
    (enroll env = Except.ok () ↔ (res = some Status.ok ∨ res = some Status.badRequest)) ∧
    (enroll env = Except.ok () ∨ enroll env = Except.error "Failed to enroll") := by
  have hkey : enroll env =
      (if res = some Status.ok then Except.ok ()
       else if res = some Status.badRequest then Except.ok ()
       else Except.error "Failed to enroll") := by
    simp [enroll, ht, hr, hc]
  rw [hkey]
  by_cases h1 : res = some Status.ok
  · simp [h1]
  · by_cases h2 : res = some Status.badRequest
    · simp [h1, h2]
    · simp [h1, h2]

/-- Claim C10, witness -/
theorem enroll_treats_badrequest_as_success_witness :
    (enroll enrollEnvBadRequest = Except.ok () ↔
      (some Status.badRequest = some Status.ok ∨
        some Status.badRequest = some Status.badRequest)) ∧
    (enroll enrollEnvBadRequest = Except.ok () ∨
      enroll enrollEnvBadRequest = Except.error "Failed to enroll") :=
  enroll_treats_badrequest_as_success enrollEnvBadRequest (some Status.badRequest) rfl rfl rfl

end OckamSpec
